import Mathlib

/-!
# Verification of the Connections Telegram delivery subsystem

Shallow embedding of the alert-dispatch subsystem of this repository:

* `src/backend/src/modules/connections/notifications/dispatcher.service.ts`
  (`ConnectionsTelegramDispatcher.dispatchPending`, `sendTestMessage`,
  `getActiveSubscribers`, `recordSent`/`recordSkipped`/`recordFailed`),
* `src/backend/src/modules/connections/notifications/telegram.transport.ts`
  (types and `DEFAULT_TELEGRAM_SETTINGS`),
* `src/backend/src/telegram-polling.worker.ts` (the polling loop offset
  handling and the `/start link_<token>` redemption branch).

Stateful TypeScript is embedded as explicit state passing: the dispatcher
is a fold over the pending-alert batch, threading the delivery-history log
and the counters, and emitting an explicit effect trace (store queries,
transport send attempts, delivery-record appends, upstream status updates)
so that frame properties ("never calls the transport", "writes no record")
are statable.  Timestamps are milliseconds since epoch (`Nat`), matching
`Date.now()`; elapsed-time comparisons are done in `Int` as in JS.
-/

namespace Conections

/-- Alert types, from `types.ts` (`ConnectionsAlertType`). -/
inductive ConnectionsAlertType where
  | EARLY_BREAKOUT
  | STRONG_ACCELERATION
  | TREND_REVERSAL
  | TEST
deriving DecidableEq, Repr

/-- Delivery statuses, from `types.ts` (`AlertDeliveryStatus`). -/
inductive AlertDeliveryStatus where
  | PREVIEW
  | SENT
  | SKIPPED
  | SUPPRESSED
  | FAILED
deriving DecidableEq, Repr

/-- Delivery settings, from `types.ts` (`TelegramDeliverySettings`).
The two per-type maps are modelled as `Option`-valued lookups because the
dispatcher code guards against missing keys (`?? 12` for cooldowns, and a
truthiness test for `type_enabled`): a stored settings document may lack a
key even though the TS type is total. -/
structure TelegramDeliverySettings where
  enabled : Bool
  preview_only : Bool
  chat_id : String
  cooldown_hours : ConnectionsAlertType → Option Nat
  type_enabled : ConnectionsAlertType → Option Bool

/-- `DEFAULT_TELEGRAM_SETTINGS` from `telegram.transport.ts` (lines 125-141). -/
def DEFAULT_TELEGRAM_SETTINGS : TelegramDeliverySettings where
  enabled := false
  preview_only := true
  chat_id := ""
  cooldown_hours := fun t =>
    match t with
    | .TEST => some 0
    | .EARLY_BREAKOUT => some 24
    | .STRONG_ACCELERATION => some 12
    | .TREND_REVERSAL => some 12
  type_enabled := fun _ => some true

/-- The policy-relevant projection of a `ConnectionsAlert` from the alerts
engine: `dispatchPending` reads only `alert.id`, `alert.type` and
`alert.account.author_id` to make delivery decisions (the metric snapshot
is used only for message formatting, which carries no policy content). -/
structure ConnectionsAlert where
  id : String
  type : ConnectionsAlertType
  account_author_id : String
deriving DecidableEq, Repr

/-- A delivery record as appended by `recordSent` / `recordSkipped` /
`recordFailed` (dispatcher.service.ts lines 297-320): the delivery-state
fields of `ConnectionsAlertEvent`. -/
structure DeliveryRecord where
  alert_id : String
  type : ConnectionsAlertType
  account_id : String
  delivery_status : AlertDeliveryStatus
  delivery_reason : Option String
  sent_at : Option Nat
  target : Option String
deriving DecidableEq, Repr

/-- A document of the `TelegramConnectionModel` collection, as read by the
dispatcher query (dispatcher.service.ts lines 100-121) and mutated by the
polling worker (telegram-polling.worker.ts lines 36-94).  An absent
`chatId` is modelled as `""` (the Mongo query excludes both absent and
empty).  Optional preference flags are `Option Bool` (absent = default). -/
structure TelegramConnection where
  userId : String
  chatId : String
  username : Option String
  firstName : Option String
  isActive : Bool
  connectedAt : Option Nat
  prefEnabled : Option Bool
  prefEarlyBreakout : Option Bool
  prefStrongAcceleration : Option Bool
  prefTrendReversal : Option Bool
  pendingLinkToken : Option String
  pendingLinkExpires : Option Nat
deriving DecidableEq, Repr

/-- The per-type preference fields of `connectionsPreferences`. -/
inductive PrefField where
  | earlyBreakout
  | strongAcceleration
  | trendReversal
deriving DecidableEq, Repr

/-- `getPreferenceField` from dispatcher.service.ts (lines 33-41):
maps an alert type to its dedicated user-preference field; `TEST` has
none ("Test always goes through"). -/
def getPreferenceField : ConnectionsAlertType → Option PrefField
  | .EARLY_BREAKOUT => some .earlyBreakout
  | .STRONG_ACCELERATION => some .strongAcceleration
  | .TREND_REVERSAL => some .trendReversal
  | .TEST => none

/-- Read a preference field off a connection document. -/
def prefValue (c : TelegramConnection) : PrefField → Option Bool
  | .earlyBreakout => c.prefEarlyBreakout
  | .strongAcceleration => c.prefStrongAcceleration
  | .trendReversal => c.prefTrendReversal

/-- The Mongo query built by `getActiveSubscribers` (dispatcher.service.ts
lines 104-113): `isActive: true`, `chatId: {$exists: true, $ne: ''}`,
`connectionsPreferences.enabled: {$ne: false}`, and - when the alert type
has a dedicated preference field - that field also `{$ne: false}`. -/
def matchesSubscriberQuery (alertType : ConnectionsAlertType)
    (c : TelegramConnection) : Bool :=
  c.isActive && c.chatId ≠ "" && c.prefEnabled ≠ some false &&
    (match getPreferenceField alertType with
     | some f => prefValue c f ≠ some false
     | none => true)

/-- The `{chatId, userId}` projection returned by `getActiveSubscribers`. -/
structure Subscriber where
  chatId : String
  userId : String
deriving DecidableEq, Repr

/-- `getActiveSubscribers` from dispatcher.service.ts (lines 100-121). -/
def getActiveSubscribers (registry : List TelegramConnection)
    (alertType : ConnectionsAlertType) : List Subscriber :=
  (registry.filter (matchesSubscriberQuery alertType)).map
    (fun c => { chatId := c.chatId, userId := c.userId })

/-- Subscriber resolution inside `dispatchPending` (lines 198-207): the
query result, with the admin channel `settings.chat_id` appended when it
is non-empty (truthy) and not already present. -/
def resolvedSubscribers (settings : TelegramDeliverySettings)
    (registry : List TelegramConnection)
    (alertType : ConnectionsAlertType) : List Subscriber :=
  let subscribers := getActiveSubscribers registry alertType
  if settings.chat_id ≠ "" &&
      !(subscribers.any (fun s => s.chatId = settings.chat_id)) then
    subscribers ++ [{ chatId := settings.chat_id, userId := "admin_channel" }]
  else
    subscribers

/-- Modelled from the spec: `ConnectionsTelegramDeliveryStore.getLastSent`
(delivery.store.ts is not under src/; spec section 4.3: "most recent SENT
record for (account_id, type)").  The history log is append-at-end, so the
most recent matching record is the last one. -/
def getLastSent (history : List DeliveryRecord) (accountId : String)
    (alertType : ConnectionsAlertType) : Option DeliveryRecord :=
  (history.filter (fun r =>
    r.delivery_status = .SENT && r.account_id = accountId &&
      r.type = alertType)).getLast?

/-- The cooldown duration used by `dispatchPending` line 175:
`settings.cooldown_hours[type] ?? 12`. -/
def cooldownHoursFor (settings : TelegramDeliverySettings)
    (alertType : ConnectionsAlertType) : Nat :=
  (settings.cooldown_hours alertType).getD 12

/-- The cooldown gate condition of `dispatchPending` (lines 176-187):
blocks when the cooldown is positive, a last SENT record with a `sent_at`
exists, and `Date.now() - lastSent.sent_at < cooldown` (in ms, compared
as in JS, hence over `Int`). -/
def cooldownBlocked (settings : TelegramDeliverySettings)
    (history : List DeliveryRecord) (now : Nat) (accountId : String)
    (alertType : ConnectionsAlertType) : Bool :=
  if cooldownHoursFor settings alertType > 0 then
    match getLastSent history accountId alertType with
    | some lastSent =>
      match lastSent.sent_at with
      | some ts =>
        (now : Int) - (ts : Int) <
          (cooldownHoursFor settings alertType : Int) * 3600 * 1000
      | none => false
    | none => false
  else false

/-- Observable effects of one `dispatchPending` run: reads of the alert
source, delivery-history point lookups, transport send attempts,
delivery-record appends, and upstream alert-status updates. -/
inductive DispatchEffect where
  | readAlerts (limit : Nat)
  | queryLastSent (accountId : String) (alertType : ConnectionsAlertType)
  | sendAttempt (alertId : String) (chatId : String)
  | recordDelivery (r : DeliveryRecord)
  | markAlertSent (alertId : String)
deriving DecidableEq, Repr

/-- The environment of one dispatch run: settings and registry snapshots,
the delivery history at entry, the current time, and the transport
outcome oracle (`sendOk alertId chatId` = the send succeeds). -/
structure DispatchEnv where
  settings : TelegramDeliverySettings
  registry : List TelegramConnection
  history : List DeliveryRecord
  now : Nat
  sendOk : String → String → Bool

/-- State threaded through the per-alert loop of `dispatchPending`. -/
structure DispatchState where
  history : List DeliveryRecord
  sent : Nat
  skipped : Nat
  failed : Nat
  trace : List DispatchEffect
deriving DecidableEq, Repr

/-- The record built by `recordSkipped` (lines 308-313). -/
def skippedRecord (alert : ConnectionsAlert) (reason : String) :
    DeliveryRecord where
  alert_id := alert.id
  type := alert.type
  account_id := alert.account_author_id
  delivery_status := .SKIPPED
  delivery_reason := some reason
  sent_at := none
  target := none

/-- The record built by `recordSent` (lines 297-306). -/
def sentRecord (now : Nat) (alert : ConnectionsAlert) (target : String) :
    DeliveryRecord where
  alert_id := alert.id
  type := alert.type
  account_id := alert.account_author_id
  delivery_status := .SENT
  delivery_reason := none
  sent_at := some now
  target := some target

/-- The record built by `recordFailed` (lines 315-320). -/
def failedRecord (alert : ConnectionsAlert) (reason : String) :
    DeliveryRecord where
  alert_id := alert.id
  type := alert.type
  account_id := alert.account_author_id
  delivery_status := .FAILED
  delivery_reason := some reason
  sent_at := none
  target := none

/-- `recordSkipped` as a state transformer: append the SKIPPED record to
the history store and note the append in the trace. -/
def recordSkippedState (st : DispatchState) (alert : ConnectionsAlert)
    (reason : String) : DispatchState :=
  let r := skippedRecord alert reason
  { st with
    history := st.history ++ [r]
    trace := st.trace ++ [.recordDelivery r] }

/-- The delivery-history lookups performed by the cooldown gate for one
alert: the store is queried iff the cooldown is positive (the
`getLastSent` call sits inside `if (cooldownH > 0)`). -/
def cooldownQueryEffects (settings : TelegramDeliverySettings)
    (alert : ConnectionsAlert) : List DispatchEffect :=
  if cooldownHoursFor settings alert.type > 0 then
    [.queryLastSent alert.account_author_id alert.type]
  else []

/-- The body of the `for (const alert of previewAlerts)` loop of
`dispatchPending` (dispatcher.service.ts lines 164-237), as a state
transformer: type gate, cooldown gate, dry-run check, subscriber
resolution, fan-out send, outcome recording. -/
def dispatchOne (env : DispatchEnv) (dryRun : Bool) (st : DispatchState)
    (alert : ConnectionsAlert) : DispatchState :=
  -- Type toggle check: `if (!settings.type_enabled[type])`
  if env.settings.type_enabled alert.type ≠ some true then
    { recordSkippedState st alert "type_disabled" with
      skipped := st.skipped + 1 }
  else
    let st1 := { st with
      trace := st.trace ++ cooldownQueryEffects env.settings alert }
    if cooldownBlocked env.settings st.history env.now
        alert.account_author_id alert.type then
      { recordSkippedState st1 alert "cooldown" with
        skipped := st.skipped + 1 }
    else
      -- message build (formatTelegramMessage) carries no policy content
      if dryRun then
        { st1 with skipped := st.skipped + 1 }
      else
        let subscribers :=
          resolvedSubscribers env.settings env.registry alert.type
        if subscribers.isEmpty then
          { recordSkippedState st1 alert "no_subscribers" with
            skipped := st.skipped + 1 }
        else
          let attempts := subscribers.map
            (fun s => DispatchEffect.sendAttempt alert.id s.chatId)
          let sentCount :=
            (subscribers.filter
              (fun s => env.sendOk alert.id s.chatId)).length
          let failedCount :=
            (subscribers.filter
              (fun s => !env.sendOk alert.id s.chatId)).length
          let st2 := { st1 with trace := st1.trace ++ attempts }
          if sentCount > 0 then
            let r := sentRecord env.now alert
              (toString sentCount ++ " subscribers")
            { st2 with
              history := st2.history ++ [r]
              trace := st2.trace ++
                [.recordDelivery r, .markAlertSent alert.id]
              sent := st.sent + 1 }
          else
            let r := failedRecord alert
              ("all " ++ toString failedCount ++ " sends failed")
            { st2 with
              history := st2.history ++ [r]
              trace := st2.trace ++ [.recordDelivery r]
              failed := st.failed + 1 }

/-- The aggregate result returned by `dispatchPending`. -/
structure DispatchOutcome where
  ok : Bool
  sent : Nat
  skipped : Nat
  failed : Nat
  reason : Option String
deriving DecidableEq, Repr

/-- `dispatchPending` (dispatcher.service.ts lines 135-240).
`previewAlerts` stands for the preview-status alerts held by the alerts
engine; `getAlerts({status: 'preview', limit})` returns the first `limit`
of them (modelled from the spec, section 4.1 step 3, since the alerts
engine source is not under src/).  Returns the aggregate outcome and the
effect trace of the run. -/
def dispatchPending (env : DispatchEnv) (dryRun : Bool) (limit : Nat)
    (previewAlerts : List ConnectionsAlert) :
    DispatchOutcome × List DispatchEffect :=
  if !env.settings.enabled then
    ({ ok := true, sent := 0, skipped := 0, failed := 0,
       reason := some "telegram_disabled" }, [])
  else if env.settings.preview_only then
    ({ ok := true, sent := 0, skipped := 0, failed := 0,
       reason := some "preview_only" }, [])
  else
    let alerts := previewAlerts.take limit
    let st0 : DispatchState :=
      { history := env.history, sent := 0, skipped := 0, failed := 0,
        trace := [.readAlerts limit] }
    let stF := alerts.foldl (dispatchOne env dryRun) st0
    ({ ok := true, sent := stF.sent, skipped := stF.skipped,
       failed := stF.failed, reason := none }, stF.trace)

/-- The SENT DeliveryRecord appended for the synthetic TEST event by
`sendTestMessage` (lines 274-288; the random `generateId` is fixed to
"tg_test" - no claim depends on the id). -/
def testDeliveryRecord (now : Nat) : DeliveryRecord where
  alert_id := "tg_test"
  type := .TEST
  account_id := "test"
  delivery_status := .SENT
  delivery_reason := none
  sent_at := some now
  target := none

/-- `sendTestMessage` (dispatcher.service.ts lines 246-291): fails fast on
disabled / preview-only settings, resolves the target (admin channel,
else first active TEST subscriber, else error), sends, and on success
appends a SENT record for the synthetic TEST event.  Returns the reply
message or the thrown error message, together with the effect trace
(empty when the function throws before sending). -/
def sendTestMessage (settings : TelegramDeliverySettings)
    (registry : List TelegramConnection) (sendOk : String → Bool)
    (now : Nat) : Except String String × List DispatchEffect :=
  if !settings.enabled then
    (.error "Telegram delivery is disabled. Enable it in settings first.", [])
  else if settings.preview_only then
    (.error "Preview-only mode is enabled. Disable it to send messages.", [])
  else
    -- target resolution: `let targetChatId = settings.chat_id; ...`
    let target : Option (String × String) :=
      if settings.chat_id ≠ "" then
        some (settings.chat_id, "admin channel")
      else
        match getActiveSubscribers registry .TEST with
        | [] => none
        | s :: _ => some (s.chatId, "subscriber " ++ s.userId)
    match target with
    | none =>
      (.error "No chat ID configured and no active subscribers found.", [])
    | some (targetChatId, targetDescription) =>
      if sendOk targetChatId then
        (.ok ("Test message sent to " ++ targetDescription),
         [.sendAttempt "tg_test" targetChatId,
          .recordDelivery (testDeliveryRecord now)])
      else
        (.error "Telegram sendMessage failed",
         [.sendAttempt "tg_test" targetChatId])

/-! ## Polling worker (telegram-polling.worker.ts) -/

/-- An inbound transport update as consumed by the polling loop, which
reads only `update.update_id` for cursor advancement (the message payload
is handed to `processUpdate`, modelled separately). -/
structure TgUpdate where
  update_id : Nat
deriving DecidableEq, Repr

/-- The evolution of the `offset` cursor over one poll batch
(telegram-polling.worker.ts lines 325-328): the loop body executes
`offset = update.update_id + 1` after processing each individual update.
`pollBatchOffsets off updates` lists the value of `offset` after each
loop iteration, starting with the value at batch entry. -/
def pollBatchOffsets : Nat → List TgUpdate → List Nat
  | off, [] => [off]
  | off, u :: rest => off :: pollBatchOffsets (u.update_id + 1) rest

/-- `findOne({pendingLinkToken: token, pendingLinkExpires: {$gt: new Date()}})`
from telegram-polling.worker.ts lines 40-43: the first connection holding
the token whose expiry is strictly in the future. -/
def findPendingByToken (registry : List TelegramConnection)
    (token : String) (now : Nat) : Option TelegramConnection :=
  registry.find? (fun c =>
    c.pendingLinkToken = some token &&
      (match c.pendingLinkExpires with
       | some e => now < e
       | none => false))

/-- The bot reply sent by the `/start link_<token>` branch. -/
inductive LinkReply where
  | connectedSuccessfully
  | invalidOrExpired
deriving DecidableEq, Repr

/-- The `updateOne({userId}, {$set: {...}, $unset: {...}})` of the link
completion (telegram-polling.worker.ts lines 47-62), applied to the first
registry document with the given `userId`. -/
def completeLinkUpdate (chatId : String) (username firstName : Option String)
    (now : Nat) (c : TelegramConnection) : TelegramConnection :=
  { c with
    chatId := chatId
    username := username
    firstName := firstName
    isActive := true
    connectedAt := some now
    pendingLinkToken := none
    pendingLinkExpires := none }

/-- Apply `f` to the first list element satisfying `p` (Mongo `updateOne`). -/
def updateFirst (p : TelegramConnection → Bool)
    (f : TelegramConnection → TelegramConnection) :
    List TelegramConnection → List TelegramConnection
  | [] => []
  | c :: rest =>
    if p c then f c :: rest else c :: updateFirst p f rest

/-- The `/start link_<token>` redemption branch of `processUpdate`
(telegram-polling.worker.ts lines 36-94): look up an unexpired pending
connection by token; when found (with a truthy `userId`), complete the
link and reply with the success message; otherwise reply
"Invalid or expired link" and leave the registry untouched. -/
def redeemLinkToken (registry : List TelegramConnection) (now : Nat)
    (chatId : String) (username firstName : Option String)
    (token : String) : List TelegramConnection × LinkReply :=
  match findPendingByToken registry token now with
  | some pendingConnection =>
    if pendingConnection.userId ≠ "" then
      (updateFirst (fun c => c.userId = pendingConnection.userId)
        (completeLinkUpdate chatId username firstName now) registry,
       .connectedSuccessfully)
    else
      (registry, .invalidOrExpired)
  | none => (registry, .invalidOrExpired)

/-! ## Structural lemmas about the per-alert dispatch step -/

/-- Exhaustive case analysis of `dispatchOne`: one alert ends in exactly
one of six outcomes - type-gate skip, cooldown skip, dry-run skip (no
record), no-subscribers skip, delivery (some send succeeded), or total
send failure - and in each case the resulting state is the entry state
plus an explicit delta. -/
theorem dispatchOne_cases (env : DispatchEnv) (dryRun : Bool)
    (st : DispatchState) (alert : ConnectionsAlert) :
    (env.settings.type_enabled alert.type ≠ some true ∧
      dispatchOne env dryRun st alert =
        { history := st.history ++ [skippedRecord alert "type_disabled"],
          sent := st.sent, skipped := st.skipped + 1, failed := st.failed,
          trace := st.trace ++
            [.recordDelivery (skippedRecord alert "type_disabled")] }) ∨
    (env.settings.type_enabled alert.type = some true ∧
      cooldownBlocked env.settings st.history env.now
        alert.account_author_id alert.type = true ∧
      dispatchOne env dryRun st alert =
        { history := st.history ++ [skippedRecord alert "cooldown"],
          sent := st.sent, skipped := st.skipped + 1, failed := st.failed,
          trace := st.trace ++ cooldownQueryEffects env.settings alert ++
            [.recordDelivery (skippedRecord alert "cooldown")] }) ∨
    (env.settings.type_enabled alert.type = some true ∧
      cooldownBlocked env.settings st.history env.now
        alert.account_author_id alert.type = false ∧
      dryRun = true ∧
      dispatchOne env dryRun st alert =
        { history := st.history, sent := st.sent,
          skipped := st.skipped + 1, failed := st.failed,
          trace := st.trace ++ cooldownQueryEffects env.settings alert }) ∨
    (env.settings.type_enabled alert.type = some true ∧
      cooldownBlocked env.settings st.history env.now
        alert.account_author_id alert.type = false ∧
      dryRun = false ∧
      resolvedSubscribers env.settings env.registry alert.type = [] ∧
      dispatchOne env dryRun st alert =
        { history := st.history ++ [skippedRecord alert "no_subscribers"],
          sent := st.sent, skipped := st.skipped + 1, failed := st.failed,
          trace := st.trace ++ cooldownQueryEffects env.settings alert ++
            [.recordDelivery (skippedRecord alert "no_subscribers")] }) ∨
    (env.settings.type_enabled alert.type = some true ∧
      cooldownBlocked env.settings st.history env.now
        alert.account_author_id alert.type = false ∧
      dryRun = false ∧
      resolvedSubscribers env.settings env.registry alert.type ≠ [] ∧
      0 < ((resolvedSubscribers env.settings env.registry
              alert.type).filter
            (fun s => env.sendOk alert.id s.chatId)).length ∧
      dispatchOne env dryRun st alert =
        { history := st.history ++
            [sentRecord env.now alert
              (toString ((resolvedSubscribers env.settings env.registry
                  alert.type).filter
                (fun s => env.sendOk alert.id s.chatId)).length ++
                " subscribers")],
          sent := st.sent + 1, skipped := st.skipped, failed := st.failed,
          trace := st.trace ++ cooldownQueryEffects env.settings alert ++
            (resolvedSubscribers env.settings env.registry alert.type).map
              (fun s => DispatchEffect.sendAttempt alert.id s.chatId) ++
            [.recordDelivery
              (sentRecord env.now alert
                (toString ((resolvedSubscribers env.settings env.registry
                    alert.type).filter
                  (fun s => env.sendOk alert.id s.chatId)).length ++
                  " subscribers")),
             .markAlertSent alert.id] }) ∨
    (env.settings.type_enabled alert.type = some true ∧
      cooldownBlocked env.settings st.history env.now
        alert.account_author_id alert.type = false ∧
      dryRun = false ∧
      resolvedSubscribers env.settings env.registry alert.type ≠ [] ∧
      ((resolvedSubscribers env.settings env.registry alert.type).filter
        (fun s => env.sendOk alert.id s.chatId)).length = 0 ∧
      dispatchOne env dryRun st alert =
        { history := st.history ++
            [failedRecord alert
              ("all " ++ toString ((resolvedSubscribers env.settings
                  env.registry alert.type).filter
                (fun s => !env.sendOk alert.id s.chatId)).length ++
                " sends failed")],
          sent := st.sent, skipped := st.skipped, failed := st.failed + 1,
          trace := st.trace ++ cooldownQueryEffects env.settings alert ++
            (resolvedSubscribers env.settings env.registry alert.type).map
              (fun s => DispatchEffect.sendAttempt alert.id s.chatId) ++
            [.recordDelivery
              (failedRecord alert
                ("all " ++ toString ((resolvedSubscribers env.settings
                    env.registry alert.type).filter
                  (fun s => !env.sendOk alert.id s.chatId)).length ++
                  " sends failed"))] }) := by
  by_cases h1 : env.settings.type_enabled alert.type = some true
  · by_cases h2 : cooldownBlocked env.settings st.history env.now
        alert.account_author_id alert.type = true
    · refine Or.inr (Or.inl ⟨h1, h2, ?_⟩)
      simp [dispatchOne, h1, h2, recordSkippedState, List.append_assoc]
    · rw [Bool.not_eq_true] at h2
      cases hdry : dryRun with
      | true =>
        refine Or.inr (Or.inr (Or.inl ⟨h1, h2, rfl, ?_⟩))
        simp [dispatchOne, h1, h2]
      | false =>
        by_cases h3 : resolvedSubscribers env.settings env.registry
            alert.type = []
        · refine Or.inr (Or.inr (Or.inr (Or.inl ⟨h1, h2, rfl, h3, ?_⟩)))
          simp [dispatchOne, h1, h2, h3, recordSkippedState,
            List.append_assoc]
        · by_cases h4 : 0 < ((resolvedSubscribers env.settings env.registry
              alert.type).filter (fun s => env.sendOk alert.id s.chatId)).length
          · refine Or.inr (Or.inr (Or.inr (Or.inr (Or.inl
              ⟨h1, h2, rfl, h3, h4, ?_⟩))))
            simp [dispatchOne, h1, h2, h3, h4, recordSkippedState,
              List.isEmpty_iff, List.append_assoc]
          · refine Or.inr (Or.inr (Or.inr (Or.inr (Or.inr
              ⟨h1, h2, rfl, h3, Nat.eq_zero_of_not_pos h4, ?_⟩))))
            simp [dispatchOne, h1, h2, h3, h4, recordSkippedState,
              List.isEmpty_iff, List.append_assoc]
  · refine Or.inl ⟨h1, ?_⟩
    simp [dispatchOne, h1, recordSkippedState]

/-! ## Claim C1 - master switch and preview-only no-op -/

/-- Fixture: settings with the master switch off. -/
def settingsDisabledC1 : TelegramDeliverySettings where
  enabled := false
  preview_only := false
  chat_id := ""
  cooldown_hours := fun _ => some 12
  type_enabled := fun _ => some true

/-- Fixture: settings enabled but in preview-only mode. -/
def settingsPreviewC1 : TelegramDeliverySettings where
  enabled := true
  preview_only := true
  chat_id := ""
  cooldown_hours := fun _ => some 12
  type_enabled := fun _ => some true

/-- Fixture: a pending EARLY_BREAKOUT alert. -/
def alertC1 : ConnectionsAlert where
  id := "c1"
  type := .EARLY_BREAKOUT
  account_author_id := "acct1"

/-- Fixture: dispatch environment with the master switch off. -/
def envDisabledC1 : DispatchEnv where
  settings := settingsDisabledC1
  registry := []
  history := []
  now := 0
  sendOk := fun _ _ => true

/-- Fixture: dispatch environment in preview-only mode. -/
def envPreviewC1 : DispatchEnv where
  settings := settingsPreviewC1
  registry := []
  history := []
  now := 0
  sendOk := fun _ _ => true

/-- C1, counterexample: with `enabled = false`, `dispatchPending` returns
the all-zero no-op result, but its reason string is `"telegram_disabled"`,
not `"disabled"` as the claim states (dispatcher.service.ts line 149). -/
theorem C1_counterexample :
    (dispatchPending envDisabledC1 false 50 [alertC1]).1.reason =
      some "telegram_disabled" ∧
    some "telegram_disabled" ≠ (some "disabled" : Option String) := by
  constructor
  · rfl
  · decide

/-- C1 (amended): for every alert batch, `dispatchPending` with
`enabled = false` returns the all-zero result with reason
`"telegram_disabled"`, reading no alerts and producing no effects (in
particular writing no DeliveryRecords); with `enabled = true` and
`preview_only = true` it returns the same all-zero no-op result with
reason `"preview_only"`; the two reason strings are distinct. -/
theorem C1_master_switch_and_preview_noop (env : DispatchEnv)
    (dryRun : Bool) (limit : Nat) (previewAlerts : List ConnectionsAlert) :
    (env.settings.enabled = false →
      dispatchPending env dryRun limit previewAlerts =
        ({ ok := true, sent := 0, skipped := 0, failed := 0,
           reason := some "telegram_disabled" }, [])) ∧
    (env.settings.enabled = true → env.settings.preview_only = true →
      dispatchPending env dryRun limit previewAlerts =
        ({ ok := true, sent := 0, skipped := 0, failed := 0,
           reason := some "preview_only" }, [])) ∧
    ("telegram_disabled" : String) ≠ "preview_only" := by
  refine ⟨fun h => ?_, fun h1 h2 => ?_, by decide⟩
  · simp [dispatchPending, h]
  · simp [dispatchPending, h1, h2]

/-- C1, witness: the amended theorem applied to the concrete disabled and
preview-only environments. -/
theorem C1_master_switch_and_preview_noop_witness :
    dispatchPending envDisabledC1 false 50 [alertC1] =
      ({ ok := true, sent := 0, skipped := 0, failed := 0,
         reason := some "telegram_disabled" }, []) ∧
    dispatchPending envPreviewC1 false 50 [alertC1] =
      ({ ok := true, sent := 0, skipped := 0, failed := 0,
         reason := some "preview_only" }, []) :=
  ⟨(C1_master_switch_and_preview_noop envDisabledC1 false 50 [alertC1]).1
      rfl,
   (C1_master_switch_and_preview_noop envPreviewC1 false 50
      [alertC1]).2.1 rfl rfl⟩

/-! ## Claim C3 - polling-loop cursor advancement -/

/-- C3, counterexample: in a batch of two updates (ids 10 and 20) entered
with offset 0, the offset after processing the first update alone is
already 11 - it advanced past update 10 while update 20 was still
unprocessed, refuting "the offset advances only after successful
processing of the whole batch". -/
theorem C3_counterexample :
    (pollBatchOffsets 0 [{ update_id := 10 }, { update_id := 20 }]).get? 1 =
      some 11 ∧ (11 : Nat) ≠ 0 := by
  decide

/-- C3 (amended): the inbound-update cursor advances after each individual
update: after processing the (k+1)-st update of a batch, the offset equals
that update's id + 1, even while later updates of the same batch remain
unprocessed (telegram-polling.worker.ts lines 325-328). -/
theorem C3_offset_advances_per_update (off : Nat)
    (updates : List TgUpdate) (k : Nat) (h : k < updates.length) :
    (pollBatchOffsets off updates).get? (k + 1) =
      some ((updates.get ⟨k, h⟩).update_id + 1) := by
  induction updates generalizing off k with
  | nil => exact absurd h (Nat.not_lt_zero k)
  | cons u rest ih =>
    cases k with
    | zero =>
      cases rest with
      | nil => rfl
      | cons v tail => rfl
    | succ m =>
      have hm : m < rest.length := Nat.lt_of_succ_lt_succ h
      simpa [pollBatchOffsets] using ih (u.update_id + 1) m hm

/-- C3, witness: the amended theorem at the concrete two-update batch. -/
theorem C3_offset_advances_per_update_witness :
    (0 : Nat) < 2 ∧
    (pollBatchOffsets 0 [{ update_id := 10 }, { update_id := 20 }]).get? 1 =
      some 11 :=
  ⟨by decide,
   C3_offset_advances_per_update 0
     [{ update_id := 10 }, { update_id := 20 }] 0 (by decide)⟩

/-! ## Claim C8 - type gate -/

/-- C8: for every pending alert whose type is disabled
(`type_enabled[type] == false`), the dispatch loop body records the alert
SKIPPED with reason `type_disabled` and hands the unchanged counters
(except `skipped`) to the next alert - regardless of the delivery
history, the registry, or the cooldown configuration, and with no
history lookup and no send attempt. -/
theorem C8_type_gate_skips (env : DispatchEnv) (dryRun : Bool)
    (st : DispatchState) (alert : ConnectionsAlert)
    (h : env.settings.type_enabled alert.type = some false) :
    dispatchOne env dryRun st alert =
      { history := st.history ++ [skippedRecord alert "type_disabled"],
        sent := st.sent, skipped := st.skipped + 1, failed := st.failed,
        trace := st.trace ++
          [.recordDelivery (skippedRecord alert "type_disabled")] } := by
  have hne : env.settings.type_enabled alert.type ≠ some true := by
    simp [h]
  simp [dispatchOne, hne, recordSkippedState]

/-- C8, witness: a disabled EARLY_BREAKOUT alert is recorded
`type_disabled` even with a recent SENT record in the history and an
active subscriber in the registry. -/
theorem C8_type_gate_skips_witness :
    dispatchOne
      { settings :=
          { enabled := true, preview_only := false, chat_id := ""
            cooldown_hours := fun _ => some 12
            type_enabled := fun t =>
              if t = .EARLY_BREAKOUT then some false else some true }
        registry := []
        history := []
        now := 1000
        sendOk := fun _ _ => true } false
      { history := [], sent := 0, skipped := 0, failed := 0, trace := [] }
      alertC1 =
      { history := [skippedRecord alertC1 "type_disabled"],
        sent := 0, skipped := 1, failed := 0,
        trace := [.recordDelivery (skippedRecord alertC1 "type_disabled")] } := by
  have h := C8_type_gate_skips
    { settings :=
        { enabled := true, preview_only := false, chat_id := ""
          cooldown_hours := fun _ => some 12
          type_enabled := fun t =>
            if t = .EARLY_BREAKOUT then some false else some true }
      registry := []
      history := []
      now := 1000
      sendOk := fun _ _ => true } false
    { history := [], sent := 0, skipped := 0, failed := 0, trace := [] }
    alertC1 (by rfl)
  simpa using h

/-! ## Claim C9 - link-token expiry -/

/-- C9: redeeming a `pending_link_token` whose `pending_link_expires` is
not in the future fails with the "Invalid or expired link" reply, and the
registry is unchanged: no chat destination is attached, no connection is
activated, and the pending-link state is untouched
(telegram-polling.worker.ts lines 36-94). -/
theorem C9_expired_link_redemption_fails
    (registry : List TelegramConnection) (now : Nat) (chatId : String)
    (username firstName : Option String) (token : String)
    (h : ∀ c ∈ registry, c.pendingLinkToken = some token →
      ∀ e, c.pendingLinkExpires = some e → e ≤ now) :
    redeemLinkToken registry now chatId username firstName token =
      (registry, .invalidOrExpired) := by
  have hfind : findPendingByToken registry token now = none := by
    rw [findPendingByToken, List.find?_eq_none]
    intro c hc
    simp only [Bool.and_eq_true, decide_eq_true_eq, not_and]
    intro htok
    cases hexp : c.pendingLinkExpires with
    | none => simp
    | some e =>
      have hle := h c hc htok e hexp
      simp [Nat.not_lt.mpr hle]
  simp [redeemLinkToken, hfind]

/-- Fixture: a pending, already-expired link connection. -/
def pendingC9 : TelegramConnection where
  userId := "user9"
  chatId := ""
  username := none
  firstName := none
  isActive := false
  connectedAt := none
  prefEnabled := none
  prefEarlyBreakout := none
  prefStrongAcceleration := none
  prefTrendReversal := none
  pendingLinkToken := some "tok9"
  pendingLinkExpires := some 50

/-- C9, witness: redeeming token "tok9" at time 100, after its expiry 50,
leaves the registry unchanged and replies invalid-or-expired. -/
theorem C9_expired_link_redemption_fails_witness :
    redeemLinkToken [pendingC9] 100 "chat9" none none "tok9" =
      ([pendingC9], .invalidOrExpired) :=
  C9_expired_link_redemption_fails [pendingC9] 100 "chat9" none none "tok9"
    (by
      intro c hc htok e hexp
      rw [List.mem_singleton] at hc
      subst hc
      have : (50 : Nat) = e := by
        simpa [pendingC9] using hexp
      omega)

/-! ## Claim C2 - dry run -/

/-- A dispatch trace is dry-run-inert when it contains no transport send,
no upstream status update, and every delivery record it appends is a
SKIPPED gate record with reason `type_disabled` or `cooldown`. -/
def DryRunInertTrace (tr : List DispatchEffect) : Prop :=
  (∀ a c, DispatchEffect.sendAttempt a c ∉ tr) ∧
  (∀ i, DispatchEffect.markAlertSent i ∉ tr) ∧
  (∀ r, DispatchEffect.recordDelivery r ∈ tr →
    r.delivery_status = .SKIPPED ∧
    (r.delivery_reason = some "type_disabled" ∨
      r.delivery_reason = some "cooldown"))

theorem dryRunInertTrace_append {tr delta : List DispatchEffect}
    (h1 : DryRunInertTrace tr) (h2 : DryRunInertTrace delta) :
    DryRunInertTrace (tr ++ delta) := by
  obtain ⟨hs1, hm1, hr1⟩ := h1
  obtain ⟨hs2, hm2, hr2⟩ := h2
  refine ⟨fun a c hmem => ?_, fun i hmem => ?_, fun r hmem => ?_⟩
  · rcases List.mem_append.mp hmem with h | h
    · exact hs1 a c h
    · exact hs2 a c h
  · rcases List.mem_append.mp hmem with h | h
    · exact hm1 i h
    · exact hm2 i h
  · rcases List.mem_append.mp hmem with h | h
    · exact hr1 r h
    · exact hr2 r h

theorem dryRunInertTrace_cooldownQuery (settings : TelegramDeliverySettings)
    (alert : ConnectionsAlert) :
    DryRunInertTrace (cooldownQueryEffects settings alert) := by
  unfold cooldownQueryEffects
  split <;> simp [DryRunInertTrace]

theorem dryRunInertTrace_skipRecord (alert : ConnectionsAlert)
    (reason : String)
    (h : reason = "type_disabled" ∨ reason = "cooldown") :
    DryRunInertTrace [.recordDelivery (skippedRecord alert reason)] := by
  refine ⟨by simp, by simp, fun r hmem => ?_⟩
  rw [List.mem_singleton, DispatchEffect.recordDelivery.injEq] at hmem
  subst hmem
  rcases h with h | h <;> simp [skippedRecord, h]

theorem dispatchOne_dryRun_inert (env : DispatchEnv) (st : DispatchState)
    (alert : ConnectionsAlert) (h : DryRunInertTrace st.trace) :
    DryRunInertTrace (dispatchOne env true st alert).trace := by
  rcases dispatchOne_cases env true st alert with
    ⟨_, heq⟩ | ⟨_, _, heq⟩ | ⟨_, _, _, heq⟩ |
    ⟨_, _, hdr, _, _⟩ | ⟨_, _, hdr, _, _, _⟩ | ⟨_, _, hdr, _, _, _⟩
  · rw [heq]
    exact dryRunInertTrace_append h
      (dryRunInertTrace_skipRecord alert "type_disabled" (Or.inl rfl))
  · rw [heq]
    exact dryRunInertTrace_append
      (dryRunInertTrace_append h (dryRunInertTrace_cooldownQuery _ _))
      (dryRunInertTrace_skipRecord alert "cooldown" (Or.inr rfl))
  · rw [heq]
    exact dryRunInertTrace_append h (dryRunInertTrace_cooldownQuery _ _)
  · exact absurd hdr (by decide)
  · exact absurd hdr (by decide)
  · exact absurd hdr (by decide)

theorem foldl_dispatchOne_dryRun_inert (env : DispatchEnv)
    (alerts : List ConnectionsAlert) :
    ∀ st : DispatchState, DryRunInertTrace st.trace →
      DryRunInertTrace ((alerts.foldl (dispatchOne env true) st).trace) := by
  induction alerts with
  | nil => exact fun st h => h
  | cons a rest ih =>
    intro st h
    exact ih _ (dispatchOne_dryRun_inert env st a h)

/-- Fixture: settings enabled for delivery but with the EARLY_BREAKOUT
type toggled off. -/
def settingsTypeOffC2 : TelegramDeliverySettings where
  enabled := true
  preview_only := false
  chat_id := ""
  cooldown_hours := fun _ => some 12
  type_enabled := fun t =>
    match t with
    | .EARLY_BREAKOUT => some false
    | _ => some true

/-- Fixture: dispatch environment for the dry-run counterexample. -/
def envC2 : DispatchEnv where
  settings := settingsTypeOffC2
  registry := []
  history := []
  now := 1000000
  sendOk := fun _ _ => true

/-- C2, counterexample: with `dryRun = true`, an alert whose type is
disabled still gets a SKIPPED DeliveryRecord appended (the type and
cooldown gates run, and record, before the dry-run check at
dispatcher.service.ts line 193) - refuting "no DeliveryRecord of any
status is appended for any alert evaluated during a dry run". -/
theorem C2_counterexample :
    DispatchEffect.recordDelivery (skippedRecord alertC1 "type_disabled") ∈
      (dispatchPending envC2 true 50 [alertC1]).2 := by
  decide

/-- C2 (amended): `dispatchPending({dryRun: true})` never calls the
Transport Client and never marks an alert SENT upstream; it appends no
SENT or FAILED DeliveryRecord - every record it appends is a SKIPPED
gate record with reason `type_disabled` or `cooldown`.  In particular,
for any alert that passes the type and cooldown gates, the dry run
appends no DeliveryRecord at all: the loop body only counts it skipped
(and performs the cooldown lookup). -/
theorem C2_dry_run_inert (env : DispatchEnv) (limit : Nat)
    (previewAlerts : List ConnectionsAlert) :
    DryRunInertTrace (dispatchPending env true limit previewAlerts).2 ∧
    (∀ st alert, env.settings.type_enabled alert.type = some true →
      cooldownBlocked env.settings st.history env.now
        alert.account_author_id alert.type = false →
      dispatchOne env true st alert =
        { history := st.history, sent := st.sent,
          skipped := st.skipped + 1, failed := st.failed,
          trace := st.trace ++ cooldownQueryEffects env.settings alert }) := by
  constructor
  · unfold dispatchPending
    split
    · simp [DryRunInertTrace]
    · split
      · simp [DryRunInertTrace]
      · exact foldl_dispatchOne_dryRun_inert env (previewAlerts.take limit)
          { history := env.history, sent := 0, skipped := 0, failed := 0,
            trace := [.readAlerts limit] }
          (by simp [DryRunInertTrace])
  · intro st alert htype hcb
    rcases dispatchOne_cases env true st alert with
      ⟨hne, _⟩ | ⟨_, hb, _⟩ | ⟨_, _, _, heq⟩ |
      ⟨_, _, hdr, _, _⟩ | ⟨_, _, hdr, _, _, _⟩ | ⟨_, _, hdr, _, _, _⟩
    · exact absurd htype hne
    · exact absurd hb (by simp [hcb])
    · exact heq
    · exact absurd hdr (by decide)
    · exact absurd hdr (by decide)
    · exact absurd hdr (by decide)

/-- C2, witness: the dry-run theorem at the concrete environment of the
counterexample - the one record written there is a gate skip, and for a
gate-passing alert the loop body writes nothing. -/
theorem C2_dry_run_inert_witness :
    ((skippedRecord alertC1 "type_disabled").delivery_status =
        AlertDeliveryStatus.SKIPPED ∧
      ((skippedRecord alertC1 "type_disabled").delivery_reason =
          some "type_disabled" ∨
        (skippedRecord alertC1 "type_disabled").delivery_reason =
          some "cooldown")) ∧
    dispatchOne envC2
      true { history := [], sent := 0, skipped := 0, failed := 0,
             trace := [] }
      { id := "c2b", type := .TEST, account_author_id := "acct2" } =
      { history := [], sent := 0, skipped := 1, failed := 0,
        trace := [.queryLastSent "acct2" .TEST] } := by
  have h := C2_dry_run_inert envC2 50 [alertC1]
  constructor
  · exact h.1.2.2 (skippedRecord alertC1 "type_disabled") (by decide)
  · have h2 := h.2
      { history := [], sent := 0, skipped := 0, failed := 0, trace := [] }
      { id := "c2b", type := .TEST, account_author_id := "acct2" }
      (by rfl) (by rfl)
    simpa [cooldownQueryEffects, cooldownHoursFor, settingsTypeOffC2,
      envC2] using h2

/-! ## Claim C10 - zero cooldown disables the cooldown gate -/

/-- A dispatch trace shows no cooldown-gate activity for alert type `t`:
no delivery-history lookup for `t`, and no SKIPPED record with reason
`cooldown` for an alert of type `t`. -/
def NoCooldownActivityFor (t : ConnectionsAlertType)
    (tr : List DispatchEffect) : Prop :=
  (∀ acc, DispatchEffect.queryLastSent acc t ∉ tr) ∧
  (∀ r, DispatchEffect.recordDelivery r ∈ tr → r.type = t →
    ¬(r.delivery_status = .SKIPPED ∧ r.delivery_reason = some "cooldown"))

theorem noCooldownActivity_append {t : ConnectionsAlertType}
    {tr delta : List DispatchEffect} (h1 : NoCooldownActivityFor t tr)
    (h2 : NoCooldownActivityFor t delta) :
    NoCooldownActivityFor t (tr ++ delta) := by
  refine ⟨fun acc hmem => ?_, fun r hmem ht => ?_⟩
  · rcases List.mem_append.mp hmem with h | h
    · exact h1.1 acc h
    · exact h2.1 acc h
  · rcases List.mem_append.mp hmem with h | h
    · exact h1.2 r h ht
    · exact h2.2 r h ht

theorem cooldownBlocked_of_zero (settings : TelegramDeliverySettings)
    (history : List DeliveryRecord) (now : Nat) (accountId : String)
    (t : ConnectionsAlertType) (hz : cooldownHoursFor settings t = 0) :
    cooldownBlocked settings history now accountId t = false := by
  simp [cooldownBlocked, hz]

theorem noCooldownActivity_queryEffects
    (settings : TelegramDeliverySettings) (alert : ConnectionsAlert)
    (t : ConnectionsAlertType) (hz : cooldownHoursFor settings t = 0) :
    NoCooldownActivityFor t (cooldownQueryEffects settings alert) := by
  unfold cooldownQueryEffects
  by_cases ha : alert.type = t
  · rw [ha, hz]
    simp [NoCooldownActivityFor]
  · split <;> simp [NoCooldownActivityFor, Ne.symm ha]

theorem noCooldownActivity_record (t : ConnectionsAlertType)
    (r : DeliveryRecord)
    (h : ¬(r.type = t ∧ r.delivery_status = .SKIPPED ∧
      r.delivery_reason = some "cooldown")) :
    NoCooldownActivityFor t [.recordDelivery r] := by
  refine ⟨by simp, fun r2 hmem ht => ?_⟩
  rw [List.mem_singleton, DispatchEffect.recordDelivery.injEq] at hmem
  subst hmem
  exact fun hc => h ⟨ht, hc⟩

theorem dispatchOne_noCooldownActivity (env : DispatchEnv) (dryRun : Bool)
    (t : ConnectionsAlertType)
    (hz : env.settings.cooldown_hours t = some 0) (st : DispatchState)
    (alert : ConnectionsAlert) (h : NoCooldownActivityFor t st.trace) :
    NoCooldownActivityFor t (dispatchOne env dryRun st alert).trace := by
  have hzf : cooldownHoursFor env.settings t = 0 := by
    simp [cooldownHoursFor, hz]
  have hq := noCooldownActivity_queryEffects env.settings alert t hzf
  rcases dispatchOne_cases env dryRun st alert with
    ⟨_, heq⟩ | ⟨_, hb, heq⟩ | ⟨_, _, _, heq⟩ |
    ⟨_, _, _, _, heq⟩ | ⟨_, _, _, _, _, heq⟩ | ⟨_, _, _, _, _, heq⟩
  · rw [heq]
    refine noCooldownActivity_append h (noCooldownActivity_record t _ ?_)
    simp [skippedRecord]
  · rw [heq]
    refine noCooldownActivity_append (noCooldownActivity_append h hq)
      (noCooldownActivity_record t _ ?_)
    rintro ⟨ht, -, -⟩
    rw [show (skippedRecord alert "cooldown").type = alert.type from rfl]
      at ht
    rw [ht] at hb
    rw [cooldownBlocked_of_zero env.settings st.history env.now
      alert.account_author_id t hzf] at hb
    exact Bool.false_ne_true hb
  · rw [heq]
    exact noCooldownActivity_append h hq
  · rw [heq]
    refine noCooldownActivity_append
      (noCooldownActivity_append h hq) (noCooldownActivity_record t _ ?_)
    simp [skippedRecord]
  · rw [heq]
    refine noCooldownActivity_append (noCooldownActivity_append
      (noCooldownActivity_append h hq) ?_)
      (noCooldownActivity_append (noCooldownActivity_record t _ ?_) ?_)
    · refine ⟨fun acc hmem => ?_, fun r hmem ht => ?_⟩
      · rcases List.mem_map.mp hmem with ⟨s, -, habs⟩
        exact DispatchEffect.noConfusion habs
      · rcases List.mem_map.mp hmem with ⟨s, -, habs⟩
        exact DispatchEffect.noConfusion habs
    · simp [sentRecord]
    · refine ⟨by simp, fun r hmem ht => ?_⟩
      rw [List.mem_singleton] at hmem
      exact DispatchEffect.noConfusion hmem
  · rw [heq]
    refine noCooldownActivity_append (noCooldownActivity_append
      (noCooldownActivity_append h hq) ?_)
      (noCooldownActivity_record t _ ?_)
    · refine ⟨fun acc hmem => ?_, fun r hmem ht => ?_⟩
      · rcases List.mem_map.mp hmem with ⟨s, -, habs⟩
        exact DispatchEffect.noConfusion habs
      · rcases List.mem_map.mp hmem with ⟨s, -, habs⟩
        exact DispatchEffect.noConfusion habs
    · simp [failedRecord]

theorem foldl_dispatchOne_noCooldownActivity (env : DispatchEnv)
    (dryRun : Bool) (t : ConnectionsAlertType)
    (hz : env.settings.cooldown_hours t = some 0)
    (alerts : List ConnectionsAlert) :
    ∀ st : DispatchState, NoCooldownActivityFor t st.trace →
      NoCooldownActivityFor t
        ((alerts.foldl (dispatchOne env dryRun) st).trace) := by
  induction alerts with
  | nil => exact fun st h => h
  | cons a rest ih =>
    intro st h
    exact ih _ (dispatchOne_noCooldownActivity env dryRun t hz st a h)

/-- C10: when a type's configured cooldown_hours is exactly 0 - as
`DEFAULT_TELEGRAM_SETTINGS` sets for the TEST type - the cooldown gate is
skipped entirely: `dispatchPending` never queries the delivery history for
a prior SENT record of that type and never records a cooldown skip for an
alert of that type, no matter what the delivery history holds. -/
theorem C10_zero_cooldown_skips_gate (env : DispatchEnv) (dryRun : Bool)
    (limit : Nat) (previewAlerts : List ConnectionsAlert)
    (t : ConnectionsAlertType)
    (hz : env.settings.cooldown_hours t = some 0) :
    DEFAULT_TELEGRAM_SETTINGS.cooldown_hours .TEST = some 0 ∧
    NoCooldownActivityFor t
      (dispatchPending env dryRun limit previewAlerts).2 := by
  refine ⟨rfl, ?_⟩
  unfold dispatchPending
  split
  · simp [NoCooldownActivityFor]
  · split
    · simp [NoCooldownActivityFor]
    · exact foldl_dispatchOne_noCooldownActivity env dryRun t hz
        (previewAlerts.take limit)
        { history := env.history, sent := 0, skipped := 0, failed := 0,
          trace := [.readAlerts limit] }
        (by simp [NoCooldownActivityFor])

/-- Fixture: settings enabled with a zero TEST cooldown (as in the
defaults) and every type enabled. -/
def settingsC10 : TelegramDeliverySettings where
  enabled := true
  preview_only := false
  chat_id := ""
  cooldown_hours := DEFAULT_TELEGRAM_SETTINGS.cooldown_hours
  type_enabled := fun _ => some true

/-- Fixture: environment whose history holds a SENT TEST record at the
current instant - a positive cooldown would block a new TEST alert. -/
def envC10 : DispatchEnv where
  settings := settingsC10
  registry := []
  history := [{ alert_id := "old", type := .TEST, account_id := "acct10",
                delivery_status := .SENT, delivery_reason := none,
                sent_at := some 999999, target := some "1 subscribers" }]
  now := 1000000
  sendOk := fun _ _ => true

/-- C10, witness: with the zero TEST cooldown, dispatching a TEST alert
for an account that was SENT a TEST alert one second ago performs no
history lookup and records no cooldown skip. -/
theorem C10_zero_cooldown_skips_gate_witness :
    NoCooldownActivityFor .TEST
      (dispatchPending envC10 false 50
        [{ id := "c10", type := .TEST, account_author_id := "acct10" }]).2 :=
  (C10_zero_cooldown_skips_gate envC10 false 50
    [{ id := "c10", type := .TEST, account_author_id := "acct10" }]
    .TEST rfl).2

/-! ## Claim C4 - cooldown enforcement -/

/-- C4: for an alert whose type passes the type gate, (i) if the most
recent SENT record for `(account_id, type)` has a `sent_at` strictly less
than the (positive) configured cooldown ago, the loop body records the
alert SKIPPED with reason `cooldown` and does not send; (ii) if at least
the cooldown has elapsed, the cooldown gate does not block and no
cooldown skip is recorded for the alert; (iii) when the type has no entry
in the cooldown map, the 12-hour fallback default applies. -/
theorem C4_cooldown_enforcement (env : DispatchEnv) (dryRun : Bool)
    (st : DispatchState) (alert : ConnectionsAlert)
    (htype : env.settings.type_enabled alert.type = some true) :
    (∀ r ts, getLastSent st.history alert.account_author_id alert.type =
        some r →
      r.sent_at = some ts →
      0 < cooldownHoursFor env.settings alert.type →
      (env.now : Int) - (ts : Int) <
        (cooldownHoursFor env.settings alert.type : Int) * 3600 * 1000 →
      dispatchOne env dryRun st alert =
        { history := st.history ++ [skippedRecord alert "cooldown"],
          sent := st.sent, skipped := st.skipped + 1, failed := st.failed,
          trace := st.trace ++ cooldownQueryEffects env.settings alert ++
            [.recordDelivery (skippedRecord alert "cooldown")] }) ∧
    (∀ r ts, getLastSent st.history alert.account_author_id alert.type =
        some r →
      r.sent_at = some ts →
      (cooldownHoursFor env.settings alert.type : Int) * 3600 * 1000 ≤
        (env.now : Int) - (ts : Int) →
      cooldownBlocked env.settings st.history env.now
        alert.account_author_id alert.type = false ∧
      ∀ rec ∈ (dispatchOne env dryRun st alert).history,
        rec ∈ st.history ∨
        ¬(rec.delivery_status = .SKIPPED ∧
          rec.delivery_reason = some "cooldown")) ∧
    (env.settings.cooldown_hours alert.type = none →
      cooldownHoursFor env.settings alert.type = 12) := by
  refine ⟨fun r ts hr hts h0 hlt => ?_, fun r ts hr hts hge => ?_,
    fun hnone => by simp [cooldownHoursFor, hnone]⟩
  · have hb : cooldownBlocked env.settings st.history env.now
        alert.account_author_id alert.type = true := by
      simp [cooldownBlocked, hr, hts, h0, hlt]
    rcases dispatchOne_cases env dryRun st alert with
      ⟨hne, _⟩ | ⟨_, _, heq⟩ | ⟨_, hb2, _, _⟩ |
      ⟨_, hb2, _, _, _⟩ | ⟨_, hb2, _, _, _, _⟩ | ⟨_, hb2, _, _, _, _⟩
    · exact absurd htype hne
    · exact heq
    · exact absurd hb (by simp [hb2])
    · exact absurd hb (by simp [hb2])
    · exact absurd hb (by simp [hb2])
    · exact absurd hb (by simp [hb2])
  · have hb : cooldownBlocked env.settings st.history env.now
        alert.account_author_id alert.type = false := by
      by_cases h0 : 0 < cooldownHoursFor env.settings alert.type
      · simp [cooldownBlocked, hr, hts, h0, Int.not_lt.mpr hge]
      · simp [cooldownBlocked, h0]
    refine ⟨hb, ?_⟩
    intro rec hmem
    rcases dispatchOne_cases env dryRun st alert with
      ⟨hne, _⟩ | ⟨_, hb2, _⟩ | ⟨_, _, _, heq⟩ |
      ⟨_, _, _, _, heq⟩ | ⟨_, _, _, _, _, heq⟩ | ⟨_, _, _, _, _, heq⟩
    · exact absurd htype hne
    · exact absurd hb2 (by simp [hb])
    · rw [heq] at hmem
      exact Or.inl hmem
    · rw [heq] at hmem
      rcases List.mem_append.mp hmem with h | h
      · exact Or.inl h
      · rw [List.mem_singleton] at h
        subst h
        exact Or.inr (by simp [skippedRecord])
    · rw [heq] at hmem
      rcases List.mem_append.mp hmem with h | h
      · exact Or.inl h
      · rw [List.mem_singleton] at h
        subst h
        exact Or.inr (by simp [sentRecord])
    · rw [heq] at hmem
      rcases List.mem_append.mp hmem with h | h
      · exact Or.inl h
      · rw [List.mem_singleton] at h
        subst h
        exact Or.inr (by simp [failedRecord])

/-- Fixture: settings for the cooldown scenario - EARLY_BREAKOUT cooldown
of 24 hours, TREND_REVERSAL missing from the cooldown map. -/
def settingsC4 : TelegramDeliverySettings where
  enabled := true
  preview_only := false
  chat_id := ""
  cooldown_hours := fun t =>
    match t with
    | .TREND_REVERSAL => none
    | _ => some 24
  type_enabled := fun _ => some true

/-- Fixture: a SENT record for `(acct4, EARLY_BREAKOUT)` at time 0. -/
def sentAtZeroC4 : DeliveryRecord where
  alert_id := "old4"
  type := .EARLY_BREAKOUT
  account_id := "acct4"
  delivery_status := .SENT
  delivery_reason := none
  sent_at := some 0
  target := some "1 subscribers"

/-- Fixture: a new EARLY_BREAKOUT alert for the same account. -/
def alertC4 : ConnectionsAlert where
  id := "c4"
  type := .EARLY_BREAKOUT
  account_author_id := "acct4"

/-- Fixture: environment evaluated one millisecond before the 24-hour
cooldown elapses. -/
def envC4early : DispatchEnv where
  settings := settingsC4
  registry := []
  history := [sentAtZeroC4]
  now := 86399999
  sendOk := fun _ _ => true

/-- Fixture: environment evaluated one millisecond after the 24-hour
cooldown elapses. -/
def envC4late : DispatchEnv where
  settings := settingsC4
  registry := []
  history := [sentAtZeroC4]
  now := 86400001
  sendOk := fun _ _ => true

/-- C4, witness: the same alert is SKIPPED `cooldown` at
`T + cooldown - 1ms`, passes the cooldown gate at `T + cooldown + 1ms`,
and a type missing from the cooldown map falls back to 12 hours. -/
theorem C4_cooldown_enforcement_witness :
    dispatchOne envC4early false
      { history := [sentAtZeroC4], sent := 0, skipped := 0, failed := 0,
        trace := [] } alertC4 =
      { history := [sentAtZeroC4] ++ [skippedRecord alertC4 "cooldown"],
        sent := 0, skipped := 1, failed := 0,
        trace := [] ++ cooldownQueryEffects settingsC4 alertC4 ++
          [.recordDelivery (skippedRecord alertC4 "cooldown")] } ∧
    cooldownBlocked settingsC4 [sentAtZeroC4] 86400001 "acct4"
      .EARLY_BREAKOUT = false ∧
    cooldownHoursFor settingsC4 .TREND_REVERSAL = 12 := by
  have hearly := C4_cooldown_enforcement envC4early false
    { history := [sentAtZeroC4], sent := 0, skipped := 0, failed := 0,
      trace := [] } alertC4 rfl
  have hlate := C4_cooldown_enforcement envC4late false
    { history := [sentAtZeroC4], sent := 0, skipped := 0, failed := 0,
      trace := [] } alertC4 rfl
  have hfallback := C4_cooldown_enforcement envC4late false
    { history := [sentAtZeroC4], sent := 0, skipped := 0, failed := 0,
      trace := [] }
    { id := "c4tr", type := .TREND_REVERSAL, account_author_id := "acct4" }
    rfl
  refine ⟨hearly.1 sentAtZeroC4 0 (by decide) rfl (by decide) (by decide),
    (hlate.2.1 sentAtZeroC4 0 (by decide) rfl (by decide)).1,
    hfallback.2.2 rfl⟩

/-! ## Claim C5 - fan-out: partial success and total failure -/

/-- C5: for an alert that reaches the send step with a non-empty resolved
subscriber set, a send is attempted for every subscriber (a per-subscriber
failure aborts neither the remaining sends nor the batch); if at least one
send succeeds the alert is recorded SENT with a target summarizing the
success count, is marked SENT upstream, and `sent` increments by exactly
1; if every send fails it is recorded FAILED with a reason containing the
failure count, and `failed` increments by exactly 1. -/
theorem C5_fan_out_partial_success (env : DispatchEnv) (st : DispatchState)
    (alert : ConnectionsAlert)
    (htype : env.settings.type_enabled alert.type = some true)
    (hcb : cooldownBlocked env.settings st.history env.now
      alert.account_author_id alert.type = false)
    (hsubs : resolvedSubscribers env.settings env.registry alert.type ≠ []) :
    (0 < ((resolvedSubscribers env.settings env.registry alert.type).filter
        (fun s => env.sendOk alert.id s.chatId)).length →
      dispatchOne env false st alert =
        { history := st.history ++
            [sentRecord env.now alert
              (toString ((resolvedSubscribers env.settings env.registry
                  alert.type).filter
                (fun s => env.sendOk alert.id s.chatId)).length ++
                " subscribers")],
          sent := st.sent + 1, skipped := st.skipped, failed := st.failed,
          trace := st.trace ++ cooldownQueryEffects env.settings alert ++
            (resolvedSubscribers env.settings env.registry alert.type).map
              (fun s => DispatchEffect.sendAttempt alert.id s.chatId) ++
            [.recordDelivery
              (sentRecord env.now alert
                (toString ((resolvedSubscribers env.settings env.registry
                    alert.type).filter
                  (fun s => env.sendOk alert.id s.chatId)).length ++
                  " subscribers")),
             .markAlertSent alert.id] }) ∧
    (((resolvedSubscribers env.settings env.registry alert.type).filter
        (fun s => env.sendOk alert.id s.chatId)).length = 0 →
      dispatchOne env false st alert =
        { history := st.history ++
            [failedRecord alert
              ("all " ++ toString ((resolvedSubscribers env.settings
                  env.registry alert.type).filter
                (fun s => !env.sendOk alert.id s.chatId)).length ++
                " sends failed")],
          sent := st.sent, skipped := st.skipped, failed := st.failed + 1,
          trace := st.trace ++ cooldownQueryEffects env.settings alert ++
            (resolvedSubscribers env.settings env.registry alert.type).map
              (fun s => DispatchEffect.sendAttempt alert.id s.chatId) ++
            [.recordDelivery
              (failedRecord alert
                ("all " ++ toString ((resolvedSubscribers env.settings
                    env.registry alert.type).filter
                  (fun s => !env.sendOk alert.id s.chatId)).length ++
                  " sends failed"))] }) := by
  constructor
  · intro hpos
    rcases dispatchOne_cases env false st alert with
      ⟨hne, _⟩ | ⟨_, hb2, _⟩ | ⟨_, _, hdr, _⟩ |
      ⟨_, _, _, hempty, _⟩ | ⟨_, _, _, _, _, heq⟩ | ⟨_, _, _, _, hzero, _⟩
    · exact absurd htype hne
    · exact absurd hb2 (by simp [hcb])
    · exact absurd hdr (by decide)
    · exact absurd hempty hsubs
    · exact heq
    · exact absurd hpos (by omega)
  · intro hzero
    rcases dispatchOne_cases env false st alert with
      ⟨hne, _⟩ | ⟨_, hb2, _⟩ | ⟨_, _, hdr, _⟩ |
      ⟨_, _, _, hempty, _⟩ | ⟨_, _, _, _, hpos, _⟩ | ⟨_, _, _, _, _, heq⟩
    · exact absurd htype hne
    · exact absurd hb2 (by simp [hcb])
    · exact absurd hdr (by decide)
    · exact absurd hempty hsubs
    · exact absurd hpos (by omega)
    · exact heq

/-- Fixture: an always-subscribed connection. -/
def connC5 (uid cid : String) : TelegramConnection where
  userId := uid
  chatId := cid
  username := none
  firstName := none
  isActive := true
  connectedAt := some 0
  prefEnabled := none
  prefEarlyBreakout := none
  prefStrongAcceleration := none
  prefTrendReversal := none
  pendingLinkToken := none
  pendingLinkExpires := none

/-- Fixture: settings for the fan-out scenario (all cooldowns zero so the
send step is reached with an empty history). -/
def settingsC5 : TelegramDeliverySettings where
  enabled := true
  preview_only := false
  chat_id := ""
  cooldown_hours := fun _ => some 0
  type_enabled := fun _ => some true

/-- Fixture: the dispatched EARLY_BREAKOUT alert. -/
def alertC5 : ConnectionsAlert where
  id := "c5"
  type := .EARLY_BREAKOUT
  account_author_id := "acct5"

/-- Fixture: three subscribers, of whom only `chatB` accepts sends. -/
def envC5partial : DispatchEnv where
  settings := settingsC5
  registry := [connC5 "u1" "chatA", connC5 "u2" "chatB", connC5 "u3" "chatC"]
  history := []
  now := 7777
  sendOk := fun _ c => c = "chatB"

/-- Fixture: two subscribers, every send failing. -/
def envC5fail : DispatchEnv where
  settings := settingsC5
  registry := [connC5 "u1" "chatA", connC5 "u2" "chatB"]
  history := []
  now := 7777
  sendOk := fun _ _ => false

/-- C5, witness: with 3 subscribers and exactly 1 successful send, the
alert is SENT ("1 subscribers"), marked upstream, `sent = 1`, and all 3
sends were attempted; with 2 subscribers and every send failing, the
alert is FAILED ("all 2 sends failed") and `failed = 1`. -/
theorem C5_fan_out_partial_success_witness :
    dispatchOne envC5partial false
      { history := [], sent := 0, skipped := 0, failed := 0, trace := [] }
      alertC5 =
      { history := [sentRecord 7777 alertC5 "1 subscribers"],
        sent := 1, skipped := 0, failed := 0,
        trace := [.sendAttempt "c5" "chatA", .sendAttempt "c5" "chatB",
          .sendAttempt "c5" "chatC",
          .recordDelivery (sentRecord 7777 alertC5 "1 subscribers"),
          .markAlertSent "c5"] } ∧
    dispatchOne envC5fail false
      { history := [], sent := 0, skipped := 0, failed := 0, trace := [] }
      alertC5 =
      { history := [failedRecord alertC5 "all 2 sends failed"],
        sent := 0, skipped := 0, failed := 1,
        trace := [.sendAttempt "c5" "chatA", .sendAttempt "c5" "chatB",
          .recordDelivery (failedRecord alertC5 "all 2 sends failed")] } := by
  have hp := (C5_fan_out_partial_success envC5partial
    { history := [], sent := 0, skipped := 0, failed := 0, trace := [] }
    alertC5 rfl (by decide) (by decide)).1 (by decide)
  have hf := (C5_fan_out_partial_success envC5fail
    { history := [], sent := 0, skipped := 0, failed := 0, trace := [] }
    alertC5 rfl (by decide) (by decide)).2 (by decide)
  exact ⟨hp.trans (by decide), hf.trans (by decide)⟩

/-! ## Claim C7 - subscriber resolution -/

/-- The Mongo query of `getActiveSubscribers`, spelled out: active, with a
non-empty destination, subscription not explicitly muted, and - when the
type has a dedicated preference field - that preference not explicitly
false (TEST has no preference field, so it always passes that part). -/
theorem matchesSubscriberQuery_iff (t : ConnectionsAlertType)
    (c : TelegramConnection) :
    matchesSubscriberQuery t c = true ↔
      (c.isActive = true ∧ c.chatId ≠ "" ∧ c.prefEnabled ≠ some false ∧
        ∀ f, getPreferenceField t = some f → prefValue c f ≠ some false) := by
  unfold matchesSubscriberQuery
  cases hf : getPreferenceField t with
  | none => simp [hf, and_assoc]
  | some f0 => simp [hf, and_assoc]

theorem mem_getActiveSubscribers (registry : List TelegramConnection)
    (t : ConnectionsAlertType) (s : Subscriber) :
    s ∈ getActiveSubscribers registry t ↔
      ∃ c ∈ registry, (c.isActive = true ∧ c.chatId ≠ "" ∧
        c.prefEnabled ≠ some false ∧
        (∀ f, getPreferenceField t = some f → prefValue c f ≠ some false)) ∧
        s = { chatId := c.chatId, userId := c.userId } := by
  unfold getActiveSubscribers
  simp only [List.mem_map, List.mem_filter]
  constructor
  · rintro ⟨c, ⟨hc, hq⟩, rfl⟩
    exact ⟨c, hc, (matchesSubscriberQuery_iff t c).mp hq, rfl⟩
  · rintro ⟨c, hc, hq, rfl⟩
    exact ⟨c, ⟨hc, (matchesSubscriberQuery_iff t c).mpr hq⟩, rfl⟩

/-- C7: the resolved subscriber set of an alert consists of exactly the
active connections with a non-empty destination whose
`subscription.enabled` is not explicitly false and - for types with a
dedicated preference field - whose per-type preference is not explicitly
false (TEST is exempt), with the admin destination appended when it is
non-empty and not already present; and when this resolved set is empty,
the alert is recorded SKIPPED with reason `no_subscribers`. -/
theorem C7_subscriber_resolution (env : DispatchEnv)
    (t : ConnectionsAlertType) :
    (∀ s : Subscriber,
      s ∈ resolvedSubscribers env.settings env.registry t ↔
        ((∃ c ∈ env.registry, (c.isActive = true ∧ c.chatId ≠ "" ∧
            c.prefEnabled ≠ some false ∧
            (∀ f, getPreferenceField t = some f →
              prefValue c f ≠ some false)) ∧
            s = { chatId := c.chatId, userId := c.userId }) ∨
          (s = { chatId := env.settings.chat_id,
                 userId := "admin_channel" } ∧
            env.settings.chat_id ≠ "" ∧
            ∀ s2 ∈ getActiveSubscribers env.registry t,
              s2.chatId ≠ env.settings.chat_id))) ∧
    (∀ st alert, alert.type = t →
      env.settings.type_enabled t = some true →
      cooldownBlocked env.settings st.history env.now
        alert.account_author_id t = false →
      resolvedSubscribers env.settings env.registry t = [] →
      dispatchOne env false st alert =
        { history := st.history ++ [skippedRecord alert "no_subscribers"],
          sent := st.sent, skipped := st.skipped + 1, failed := st.failed,
          trace := st.trace ++ cooldownQueryEffects env.settings alert ++
            [.recordDelivery (skippedRecord alert "no_subscribers")] }) := by
  constructor
  · intro s
    unfold resolvedSubscribers
    by_cases hA : (env.settings.chat_id ≠ "" &&
        !((getActiveSubscribers env.registry t).any
          (fun s2 => s2.chatId = env.settings.chat_id))) = true
    · rw [if_pos hA]
      simp only [Bool.and_eq_true, Bool.not_eq_true', decide_eq_true_eq]
        at hA
      obtain ⟨h1, h2⟩ := hA
      have h2m : ∀ s2 ∈ getActiveSubscribers env.registry t,
          s2.chatId ≠ env.settings.chat_id := by
        intro s2 hs2 heqc
        have hany : (getActiveSubscribers env.registry t).any
            (fun x => x.chatId = env.settings.chat_id) = true :=
          List.any_eq_true.mpr ⟨s2, hs2, by simp [heqc]⟩
        rw [hany] at h2
        exact absurd h2 (by decide)
      rw [List.mem_append, List.mem_singleton]
      constructor
      · rintro (hs | rfl)
        · exact Or.inl ((mem_getActiveSubscribers env.registry t s).mp hs)
        · exact Or.inr ⟨rfl, h1, h2m⟩
      · rintro (hs | ⟨rfl, -, -⟩)
        · exact Or.inl ((mem_getActiveSubscribers env.registry t s).mpr hs)
        · exact Or.inr rfl
    · rw [if_neg hA]
      constructor
      · intro hs
        exact Or.inl ((mem_getActiveSubscribers env.registry t s).mp hs)
      · rintro (hs | ⟨rfl, h1, h2⟩)
        · exact (mem_getActiveSubscribers env.registry t s).mpr hs
        · exfalso
          apply hA
          simp only [Bool.and_eq_true, Bool.not_eq_true',
            decide_eq_true_eq]
          refine ⟨h1, ?_⟩
          cases hany : (getActiveSubscribers env.registry t).any
              (fun x => x.chatId = env.settings.chat_id) with
          | false => rfl
          | true =>
            rcases List.any_eq_true.mp hany with ⟨s2, hs2, hc⟩
            exact absurd (by simpa using hc) (h2 s2 hs2)
  · intro st alert halert htype hcb hempty
    subst halert
    rcases dispatchOne_cases env false st alert with
      ⟨hne, _⟩ | ⟨_, hb2, _⟩ | ⟨_, _, hdr, _⟩ |
      ⟨_, _, _, _, heq⟩ | ⟨_, _, _, hne2, _, _⟩ | ⟨_, _, _, hne2, _, _⟩
    · exact absurd htype hne
    · exact absurd hb2 (by simp [hcb])
    · exact absurd hdr (by decide)
    · exact heq
    · exact absurd hempty hne2
    · exact absurd hempty hne2

/-- Fixture: registry with one eligible connection, one muted, one with
the EARLY_BREAKOUT preference off, and one inactive. -/
def regC7 : List TelegramConnection :=
  [connC5 "u1" "chatX",
   { connC5 "u2" "chatY" with prefEnabled := some false },
   { connC5 "u3" "chatZ" with prefEarlyBreakout := some false },
   { connC5 "u4" "chatW" with isActive := false }]

/-- Fixture: settings with an admin destination configured. -/
def settingsC7 : TelegramDeliverySettings where
  enabled := true
  preview_only := false
  chat_id := "admin7"
  cooldown_hours := fun _ => some 0
  type_enabled := fun _ => some true

/-- Fixture: environment for the membership facts. -/
def envC7 : DispatchEnv where
  settings := settingsC7
  registry := regC7
  history := []
  now := 0
  sendOk := fun _ _ => true

/-- Fixture: environment with no connections and no admin destination. -/
def envC7empty : DispatchEnv where
  settings := { settingsC7 with chat_id := "" }
  registry := []
  history := []
  now := 0
  sendOk := fun _ _ => true

/-- C7, witness: in the concrete registry the eligible connection and the
appended admin destination are resolved subscribers, and with no
connections and no admin destination a passing alert is recorded
SKIPPED `no_subscribers`. -/
theorem C7_subscriber_resolution_witness :
    ({ chatId := "chatX", userId := "u1" } : Subscriber) ∈
      resolvedSubscribers settingsC7 regC7 .EARLY_BREAKOUT ∧
    ({ chatId := "admin7", userId := "admin_channel" } : Subscriber) ∈
      resolvedSubscribers settingsC7 regC7 .EARLY_BREAKOUT ∧
    dispatchOne envC7empty false
      { history := [], sent := 0, skipped := 0, failed := 0, trace := [] }
      alertC5 =
      { history := [skippedRecord alertC5 "no_subscribers"],
        sent := 0, skipped := 1, failed := 0,
        trace :=
          [.recordDelivery (skippedRecord alertC5 "no_subscribers")] } := by
  have h := C7_subscriber_resolution envC7 .EARLY_BREAKOUT
  refine ⟨?_, ?_, ?_⟩
  · exact (h.1 { chatId := "chatX", userId := "u1" }).mpr
      (Or.inl ⟨connC5 "u1" "chatX", by decide, ⟨rfl, by decide, by decide,
        by
          intro f hf
          rw [getPreferenceField, Option.some.injEq] at hf
          subst hf
          decide⟩, rfl⟩)
  · exact (h.1 { chatId := "admin7", userId := "admin_channel" }).mpr
      (Or.inr ⟨rfl, by decide, by decide⟩)
  · have h2 := (C7_subscriber_resolution envC7empty .EARLY_BREAKOUT).2
      { history := [], sent := 0, skipped := 0, failed := 0, trace := [] }
      alertC5 rfl rfl (by decide) (by decide)
    exact h2.trans (by decide)

/-! ## Claim C6 - test message -/

/-- Fixture: enabled settings with neither an admin destination nor any
subscriber available. -/
def settingsC6 : TelegramDeliverySettings where
  enabled := true
  preview_only := false
  chat_id := ""
  cooldown_hours := fun _ => some 0
  type_enabled := fun _ => some true

/-- C6, counterexample: with no admin destination and no active
subscriber, `sendTestMessage` fails with the error message
"No chat ID configured and no active subscribers found."
(dispatcher.service.ts line 271), not "no destination available" as the
claim states. -/
theorem C6_counterexample :
    (sendTestMessage settingsC6 [] (fun _ => true) 0).1 =
      .error "No chat ID configured and no active subscribers found." ∧
    ("No chat ID configured and no active subscribers found." : String) ≠
      "no destination available" := by
  constructor
  · rfl
  · decide

/-- C6 (amended): `sendTestMessage` fails fast - producing no transport
call and no DeliveryRecord - when `enabled == false` or when
`preview_only == true`, with a distinct error message for each of the two
conditions; its target is the configured admin destination when present,
otherwise the first active subscriber for the TEST type, otherwise it
fails with "No chat ID configured and no active subscribers found."; and
on success it records a SENT DeliveryRecord for the synthetic TEST
event. -/
theorem C6_send_test_message (settings : TelegramDeliverySettings)
    (registry : List TelegramConnection) (sendOk : String → Bool)
    (now : Nat) :
    (settings.enabled = false →
      sendTestMessage settings registry sendOk now =
        (.error "Telegram delivery is disabled. Enable it in settings first.",
         [])) ∧
    (settings.enabled = true → settings.preview_only = true →
      sendTestMessage settings registry sendOk now =
        (.error "Preview-only mode is enabled. Disable it to send messages.",
         [])) ∧
    ("Telegram delivery is disabled. Enable it in settings first." :
        String) ≠
      "Preview-only mode is enabled. Disable it to send messages." ∧
    (settings.enabled = true → settings.preview_only = false →
      settings.chat_id ≠ "" →
      (sendTestMessage settings registry sendOk now).2.head? =
        some (.sendAttempt "tg_test" settings.chat_id)) ∧
    (settings.enabled = true → settings.preview_only = false →
      settings.chat_id = "" →
      ∀ s rest, getActiveSubscribers registry .TEST = s :: rest →
        (sendTestMessage settings registry sendOk now).2.head? =
          some (.sendAttempt "tg_test" s.chatId)) ∧
    (settings.enabled = true → settings.preview_only = false →
      settings.chat_id = "" → getActiveSubscribers registry .TEST = [] →
      sendTestMessage settings registry sendOk now =
        (.error "No chat ID configured and no active subscribers found.",
         [])) ∧
    (∀ m, (sendTestMessage settings registry sendOk now).1 = .ok m →
      ∃ r, DispatchEffect.recordDelivery r ∈
          (sendTestMessage settings registry sendOk now).2 ∧
        r.delivery_status = .SENT ∧ r.type = .TEST ∧
        r.account_id = "test" ∧ r.sent_at = some now) := by
  refine ⟨fun h => ?_, fun h1 h2 => ?_, by decide,
    fun h1 h2 h3 => ?_, fun h1 h2 h3 s rest hs => ?_,
    fun h1 h2 h3 h4 => ?_, fun m hm => ?_⟩
  · simp [sendTestMessage, h]
  · simp [sendTestMessage, h1, h2]
  · unfold sendTestMessage
    rw [if_neg (by simp [h1]), if_neg (by simp [h2]), if_pos h3]
    cases hok : sendOk settings.chat_id <;> simp [hok]
  · unfold sendTestMessage
    rw [if_neg (by simp [h1]), if_neg (by simp [h2]),
      if_neg (by simp [h3]), hs]
    cases hok : sendOk s.chatId <;> simp [hok]
  · unfold sendTestMessage
    rw [if_neg (by simp [h1]), if_neg (by simp [h2]),
      if_neg (by simp [h3]), h4]
  · unfold sendTestMessage at hm ⊢
    by_cases h1 : settings.enabled = true
    · rw [if_neg (by simp [h1])] at hm ⊢
      by_cases h2 : settings.preview_only = true
      · rw [if_pos h2] at hm
        exact absurd hm (by simp)
      · rw [if_neg h2] at hm ⊢
        by_cases h3 : settings.chat_id ≠ ""
        · rw [if_pos h3] at hm ⊢
          by_cases hok : sendOk settings.chat_id = true
          · refine ⟨testDeliveryRecord now, ?_, rfl, rfl, rfl, rfl⟩
            simp [hok]
          · rw [Bool.not_eq_true] at hok
            simp [hok] at hm
        · rw [if_neg h3] at hm ⊢
          cases hs : getActiveSubscribers registry .TEST with
          | nil =>
            rw [hs] at hm
            exact absurd hm (by simp)
          | cons s rest =>
            rw [hs] at hm
            by_cases hok : sendOk s.chatId = true
            · refine ⟨testDeliveryRecord now, ?_, rfl, rfl, rfl, rfl⟩
              simp [hok]
            · rw [Bool.not_eq_true] at hok
              simp [hok] at hm
    · rw [Bool.not_eq_true] at h1
      rw [if_pos (by simp [h1])] at hm
      exact absurd hm (by simp)

/-- Fixture: settings with an admin destination for the test message. -/
def settingsC6admin : TelegramDeliverySettings where
  enabled := true
  preview_only := false
  chat_id := "adminChat"
  cooldown_hours := fun _ => some 0
  type_enabled := fun _ => some true

/-- C6, witness: the amended theorem at concrete inputs - the two
fail-fast errors (distinct messages, no effects), the admin-channel
target, the no-destination error, and the SENT TEST record on success. -/
theorem C6_send_test_message_witness :
    sendTestMessage DEFAULT_TELEGRAM_SETTINGS [] (fun _ => true) 3 =
      (.error "Telegram delivery is disabled. Enable it in settings first.",
       []) ∧
    sendTestMessage settingsPreviewC1 [] (fun _ => true) 3 =
      (.error "Preview-only mode is enabled. Disable it to send messages.",
       []) ∧
    (sendTestMessage settingsC6admin [] (fun _ => true) 3).2.head? =
      some (.sendAttempt "tg_test" "adminChat") ∧
    sendTestMessage settingsC6 [] (fun _ => true) 3 =
      (.error "No chat ID configured and no active subscribers found.",
       []) ∧
    ∃ r, DispatchEffect.recordDelivery r ∈
        (sendTestMessage settingsC6admin [] (fun _ => true) 3).2 ∧
      r.delivery_status = .SENT ∧ r.type = .TEST ∧
      r.account_id = "test" ∧ r.sent_at = some 3 := by
  refine ⟨?_, ?_, ?_, ?_, ?_⟩
  · exact (C6_send_test_message DEFAULT_TELEGRAM_SETTINGS []
      (fun _ => true) 3).1 rfl
  · exact (C6_send_test_message settingsPreviewC1 []
      (fun _ => true) 3).2.1 rfl rfl
  · exact (C6_send_test_message settingsC6admin []
      (fun _ => true) 3).2.2.2.1 rfl rfl (by decide)
  · exact (C6_send_test_message settingsC6 []
      (fun _ => true) 3).2.2.2.2.2.1 rfl rfl rfl (by decide)
  · exact (C6_send_test_message settingsC6admin []
      (fun _ => true) 3).2.2.2.2.2.2 "Test message sent to admin channel"
      rfl

end Conections
